import Mathlib

/-!
Verification of the TelloService protocol/session layer (src/services/TelloService.ts
and src/types/tello.ts): the telemetry parser, the serialized command dispatcher,
range-validated flight operations, the continuous (RC) control path, the safety
monitor, and the connection state machine.  JS runtime pieces the service calls
(String.prototype.split / trim, parseFloat, Math.round/min/max) are embedded
directly; everything else is translated from the source.
-/

namespace TelloDew

/-- Exact decimal number, mantissa / 10 ^ scale.  Models the exact value denoted
by a JS numeric literal made of a sign, integer digits and fraction digits (the
only numbers the drone protocol carries; IEEE rounding never matters at the
granularity of the claims). -/
structure Dec where
  mantissa : ℤ
  scale : ℕ
deriving DecidableEq, Repr

/-- JS number as produced by parseFloat: NaN or an exact decimal value. -/
inductive JSNum where
  | nan : JSNum
  | val : Dec → JSNum
deriving DecidableEq, Repr

/-- ASCII whitespace recognized when modelling JS leading-whitespace skipping. -/
def isSpaceChar (c : Char) : Bool := c = ' ' ∨ c = '\t' ∨ c = '\n' ∨ c = '\r'

/-- Value of a list of decimal digit characters, most significant first. -/
def digitsVal (ds : List Char) : ℕ := ds.foldl (fun n c => 10 * n + (c.toNat - 48)) 0

/-- Models the JS parseFloat builtin on its core grammar: skip leading
whitespace, optional sign, integer digits, optional dot and fraction digits;
NaN when no digit is found.  (The exponent form never occurs in telemetry.) -/
def parseFloatChars (s : List Char) : JSNum :=
  let s1 := s.dropWhile isSpaceChar
  let signNum : ℤ := if s1.headD ' ' = '-' then -1 else 1
  let s2 := if s1.headD ' ' = '-' ∨ s1.headD ' ' = '+' then s1.tail else s1
  let intDigits := s2.takeWhile Char.isDigit
  let s3 := s2.dropWhile Char.isDigit
  let fracDigits := if s3.headD ' ' = '.' then s3.tail.takeWhile Char.isDigit else []
  if intDigits = [] ∧ fracDigits = [] then JSNum.nan
  else
    JSNum.val
      ⟨signNum * ((digitsVal intDigits : ℤ) * 10 ^ fracDigits.length + digitsVal fracDigits),
       fracDigits.length⟩

/-- Models JS String.prototype.split with a single-character separator:
"".split(s) = [""], a trailing separator yields a trailing empty piece. -/
def splitOnChar (sep : Char) : List Char → List (List Char)
  | [] => [[]]
  | c :: cs =>
    if c = sep then [] :: splitOnChar sep cs
    else
      match splitOnChar sep cs with
      | [] => [[c]]
      | w :: ws => (c :: w) :: ws

/-- The composite 3-axis acceleration object of TelloState. -/
structure Accel where
  x : JSNum
  y : JSNum
  z : JSNum
deriving DecidableEq, Repr

/-- The fresh acceleration object `\x7bx: 0, y: 0, z: 0\x7d` created when an
agx/agy/agz key is seen and no acceleration object exists yet. -/
def zeroAccel : Accel := ⟨JSNum.val ⟨0, 0⟩, JSNum.val ⟨0, 0⟩, JSNum.val ⟨0, 0⟩⟩

/-- A sparse telemetry record (the TS type is a sparse subset of TelloState):
each field is absent unless the corresponding key occurred in the parsed line. -/
structure StateSnapshot where
  pitch : Option JSNum := none
  roll : Option JSNum := none
  yaw : Option JSNum := none
  speedX : Option JSNum := none
  speedY : Option JSNum := none
  speedZ : Option JSNum := none
  tempLow : Option JSNum := none
  tempHigh : Option JSNum := none
  tof : Option JSNum := none
  height : Option JSNum := none
  battery : Option JSNum := none
  barometer : Option JSNum := none
  time : Option JSNum := none
  acceleration : Option Accel := none
  missionPadId : Option JSNum := none
  missionPadX : Option JSNum := none
  missionPadY : Option JSNum := none
  missionPadZ : Option JSNum := none
deriving DecidableEq, Repr

/-- The empty record `\x7b\x7d` parseStateString starts from. -/
def emptyState : StateSnapshot := {}

/-- The cases of the switch statement in parseStateString, one per stored
field of the snapshot. -/
inductive FieldKey where
  | pitch | roll | yaw | speedX | speedY | speedZ | tempLow | tempHigh
  | tof | height | battery | barometer | time | accelX | accelY | accelZ
  | missionPadId | missionPadX | missionPadY | missionPadZ
deriving DecidableEq, Repr

/-- The case labels of the switch in parseStateString: each recognized key
string paired with the field its case stores. -/
def keyCases : List (List Char × FieldKey) :=
  [("pitch".data, .pitch), ("roll".data, .roll), ("yaw".data, .yaw),
   ("vgx".data, .speedX), ("vgy".data, .speedY), ("vgz".data, .speedZ),
   ("templ".data, .tempLow), ("temph".data, .tempHigh), ("tof".data, .tof),
   ("h".data, .height), ("bat".data, .battery), ("baro".data, .barometer),
   ("time".data, .time), ("agx".data, .accelX), ("agy".data, .accelY),
   ("agz".data, .accelZ), ("mid".data, .missionPadId), ("x".data, .missionPadX),
   ("y".data, .missionPadY), ("z".data, .missionPadZ)]

/-- First-match lookup of a key in a case table, as a switch on string
equality dispatches. -/
def lookupCase : List (List Char × FieldKey) → List Char → Option FieldKey
  | [], _ => none
  | (s, k) :: rest, key => if key = s then some k else lookupCase rest key

/-- Which case of the switch of parseStateString the key selects, if any. -/
def caseOf (key : List Char) : Option FieldKey := lookupCase keyCases key

/-- The body of one switch case: store the parsed value in the case's field.
The agx/agy/agz cases first create a zero acceleration object if none exists,
then overwrite the one axis. -/
def setField (k : FieldKey) (st : StateSnapshot) (v : JSNum) : StateSnapshot :=
  match k with
  | .pitch => { st with pitch := some v }
  | .roll => { st with roll := some v }
  | .yaw => { st with yaw := some v }
  | .speedX => { st with speedX := some v }
  | .speedY => { st with speedY := some v }
  | .speedZ => { st with speedZ := some v }
  | .tempLow => { st with tempLow := some v }
  | .tempHigh => { st with tempHigh := some v }
  | .tof => { st with tof := some v }
  | .height => { st with height := some v }
  | .battery => { st with battery := some v }
  | .barometer => { st with barometer := some v }
  | .time => { st with time := some v }
  | .accelX => { st with acceleration := some { st.acceleration.getD zeroAccel with x := v } }
  | .accelY => { st with acceleration := some { st.acceleration.getD zeroAccel with y := v } }
  | .accelZ => { st with acceleration := some { st.acceleration.getD zeroAccel with z := v } }
  | .missionPadId => { st with missionPadId := some v }
  | .missionPadX => { st with missionPadX := some v }
  | .missionPadY => { st with missionPadY := some v }
  | .missionPadZ => { st with missionPadZ := some v }

/-- The switch statement of parseStateString: a recognized key stores the
parsed value in its field; an unrecognized key leaves the record unchanged. -/
def applySetter (key : List Char) (st : StateSnapshot) (v : JSNum) : StateSnapshot :=
  match caseOf key with
  | none => st
  | some k => setField k st v

/-- The keys the switch of parseStateString recognizes. -/
def recognizedKeys : List (List Char) := keyCases.map Prod.fst

/-- The loop body of parseStateString for one `key:value` pair: destructure
`pair.split(s)` into key (first piece) and value (second piece, missing when
the separator is absent); skip the pair when the value is missing or either
part is the empty string (JS falsy check), otherwise apply the switch with
parseFloat of the value. -/
def applyPair (st : StateSnapshot) (pair : List Char) : StateSnapshot :=
  match splitOnChar ':' pair with
  | key :: value :: _ =>
    if key = [] ∨ value = [] then st
    else applySetter key st (parseFloatChars value)
  | _ => st

/-- parseStateString: split the datagram text on semicolons and fold the pair
handler over a freshly created empty record. -/
def parseStateString (s : String) : StateSnapshot :=
  (splitOnChar ';' s.data).foldl applyPair emptyState

/-- The key part of a `key:value` pair, as destructured in parseStateString. -/
def keyOf (pair : List Char) : List Char := (splitOnChar ':' pair).headD []

/-- Models the telemetry message handler installed by setupStateListener:
`this.currentState = state` replaces the previous snapshot wholesale with the
freshly parsed record; the previous snapshot is not consulted. -/
def updateSnapshot (_prev : StateSnapshot) (msg : String) : StateSnapshot :=
  parseStateString msg

/-- The snapshot held after a sequence of telemetry datagrams has been
processed by the state listener, starting from the initial empty record. -/
def snapshotAfter (msgs : List String) : StateSnapshot :=
  msgs.foldl updateSnapshot emptyState

/-- Result of a completed command (TelloResponse in src/types/tello.ts; the
optional untyped data field is never written by the service and is omitted). -/
structure TelloResponse where
  success : Bool
  message : String
deriving DecidableEq, Repr

/-- The connection state enumeration of src/types/tello.ts. -/
inductive ConnectionState where
  | disconnected
  | connecting
  | connected
  | flying
  | error
deriving DecidableEq, Repr

/-- An immutable command request (TelloCommand in src/types/tello.ts): command
text, optional override timeout, optional expect-response flag. -/
structure TelloCommand where
  command : String
  timeout : Option ℕ := none
  expectResponse : Option Bool := none
deriving DecidableEq, Repr

/-- ASCII core of JS String.prototype.trim: drop leading and trailing
whitespace characters. -/
def jsTrim (s : String) : String :=
  ⟨((s.data.dropWhile isSpaceChar).reverse.dropWhile isSpaceChar).reverse⟩

/-- The first event that reaches a pending executeCommand entry: the next
inbound datagram on the command channel, the timeout timer firing, or the
socket send callback reporting an error. -/
inductive FirstEvent where
  | datagram (msg : String)
  | timerFired
  | sendError (err : String)
deriving DecidableEq, Repr

/-- Terminal observation of one executeCommand run: how the promise settled
(Except.error models reject, Except.ok models resolve), and whether the
one-shot message listener and the timeout timer are still live afterwards. -/
structure ExecOutcome where
  result : Except String TelloResponse
  listenerLive : Bool
  timerLive : Bool
deriving Repr

/-- executeCommand, resolved against the first event that reaches the entry.
Branches mirror the source: no socket rejects immediately (nothing armed);
expectResponse === false resolves with a synthetic success after the send,
clearing the timer and never attaching the listener; a datagram clears the
timer, removes the listener and resolves with success iff the trimmed text is
the literal "ok" and message the trimmed text; the timer firing removes the
listener and resolves with the fixed timeout response; a send error clears the
timer, removes the listener and rejects. -/
def executeCommand (socketOpen : Bool) (cmd : TelloCommand) (ev : FirstEvent) : ExecOutcome :=
  if !socketOpen then
    { result := .error "Not connected", listenerLive := false, timerLive := false }
  else if cmd.expectResponse = some false then
    { result := .ok { success := true, message := "Command sent" },
      listenerLive := false, timerLive := false }
  else
    match ev with
    | .datagram msg =>
      { result := .ok { success := jsTrim msg == "ok", message := jsTrim msg },
        listenerLive := false, timerLive := false }
    | .timerFired =>
      { result := .ok { success := false, message := "Command timeout" },
        listenerLive := false, timerLive := false }
    | .sendError err =>
      { result := .error err, listenerLive := false, timerLive := false }

/-- The fixed settle delay (ms) processCommandQueue waits between commands. -/
def settleDelay : ℕ := 100

/-- One queue entry as observed on a timeline: the command text, the instant
its send was issued and the instant its promise settled. -/
structure TimedSend where
  cmd : String
  sendTime : ℕ
  resolveTime : ℕ
deriving DecidableEq, Repr

/-- Timeline of the worker loop of processCommandQueue: entries are shifted
from the queue in order; each is sent, awaited until it resolves (its
resolution latency is the second component of the pair, an oracle covering
response arrival, timeout expiry or send-error), and the loop then sleeps the
settle delay before sending the next entry. -/
def processCommandQueue : ℕ → List (String × ℕ) → List TimedSend
  | _, [] => []
  | t0, (c, d) :: rest =>
    ⟨c, t0, t0 + d⟩ :: processCommandQueue (t0 + d + settleDelay) rest

/-- Result of a typed operation: Sum.inl is a failure Response returned
synchronously with no dispatcher involvement and no network I/O; Sum.inr is
the literal command string handed to sendCommand (enqueued for the
dispatcher). -/
abbrev OpResult := Sum TelloResponse String

/-- Whether an operation result is a local synchronous rejection (a failure
Response produced before any enqueue or network I/O). -/
def isLocalReject : OpResult → Prop
  | .inl r => r.success = false
  | .inr _ => False

instance : DecidablePred isLocalReject := by
  intro x
  cases x <;> simp [isLocalReject] <;> infer_instance

/-- move: reject distances outside 20..500 cm locally, otherwise enqueue
the literal `<direction> <distance>` string.  The direction argument ranges
over the string union type of the source. -/
def move (direction : String) (distance : ℤ) : OpResult :=
  if distance < 20 ∨ distance > 500 then
    .inl { success := false, message := "Distance must be 20-500cm" }
  else .inr (direction ++ " " ++ toString distance)

/-- rotate: reject degrees outside 1..360 locally, otherwise enqueue
`<cw|ccw> <degrees>`. -/
def rotate (direction : String) (degrees : ℤ) : OpResult :=
  if degrees < 1 ∨ degrees > 360 then
    .inl { success := false, message := "Degrees must be 1-360" }
  else .inr (direction ++ " " ++ toString degrees)

/-- setSpeed: reject cruise speeds outside 10..100 cm/s locally, otherwise
enqueue `speed <speed>`. -/
def setSpeed (speed : ℤ) : OpResult :=
  if speed < 10 ∨ speed > 100 then
    .inl { success := false, message := "Speed must be 10-100 cm/s" }
  else .inr ("speed " ++ toString speed)

/-- goXYZSpeed: coordinates −500..500 cm, speed 10..100 cm/s, then enqueue
`go <x> <y> <z> <speed>`. -/
def goXYZSpeed (x y z speed : ℤ) : OpResult :=
  if x < -500 ∨ x > 500 ∨ y < -500 ∨ y > 500 ∨ z < -500 ∨ z > 500 then
    .inl { success := false, message := "Coordinates must be -500 to 500 cm" }
  else if speed < 10 ∨ speed > 100 then
    .inl { success := false, message := "Speed must be 10-100 cm/s" }
  else
    .inr ("go " ++ toString x ++ " " ++ toString y ++ " " ++ toString z ++ " " ++ toString speed)

/-- curveXYZSpeed: both coordinates −500..500 cm, speed 10..60 cm/s, then
enqueue `curve <x1> <y1> <z1> <x2> <y2> <z2> <speed>`. -/
def curveXYZSpeed (x1 y1 z1 x2 y2 z2 speed : ℤ) : OpResult :=
  if x1 < -500 ∨ x1 > 500 ∨ y1 < -500 ∨ y1 > 500 ∨ z1 < -500 ∨ z1 > 500 ∨
     x2 < -500 ∨ x2 > 500 ∨ y2 < -500 ∨ y2 > 500 ∨ z2 < -500 ∨ z2 > 500 then
    .inl { success := false, message := "Coordinates must be -500 to 500 cm" }
  else if speed < 10 ∨ speed > 60 then
    .inl { success := false, message := "Speed must be 10-60 cm/s for curves" }
  else
    .inr ("curve " ++ toString x1 ++ " " ++ toString y1 ++ " " ++ toString z1 ++ " " ++
      toString x2 ++ " " ++ toString y2 ++ " " ++ toString z2 ++ " " ++ toString speed)

/-- goXYZSpeedMid: coordinates −500..500 cm, speed 10..100 cm/s, mission pad id
1..8, then enqueue `go <x> <y> <z> <speed> m<mid>`. -/
def goXYZSpeedMid (x y z speed mid : ℤ) : OpResult :=
  if x < -500 ∨ x > 500 ∨ y < -500 ∨ y > 500 ∨ z < -500 ∨ z > 500 then
    .inl { success := false, message := "Coordinates must be -500 to 500 cm" }
  else if speed < 10 ∨ speed > 100 then
    .inl { success := false, message := "Speed must be 10-100 cm/s" }
  else if mid < 1 ∨ mid > 8 then
    .inl { success := false, message := "Mission pad ID must be 1-8" }
  else
    .inr ("go " ++ toString x ++ " " ++ toString y ++ " " ++ toString z ++ " " ++
      toString speed ++ " m" ++ toString mid)

/-- curveXYZSpeedMid: both coordinates −500..500 cm, speed 10..60 cm/s,
mission pad id 1..8, then enqueue
`curve <x1> <y1> <z1> <x2> <y2> <z2> <speed> m<mid>`. -/
def curveXYZSpeedMid (x1 y1 z1 x2 y2 z2 speed mid : ℤ) : OpResult :=
  if x1 < -500 ∨ x1 > 500 ∨ y1 < -500 ∨ y1 > 500 ∨ z1 < -500 ∨ z1 > 500 ∨
     x2 < -500 ∨ x2 > 500 ∨ y2 < -500 ∨ y2 > 500 ∨ z2 < -500 ∨ z2 > 500 then
    .inl { success := false, message := "Coordinates must be -500 to 500 cm" }
  else if speed < 10 ∨ speed > 60 then
    .inl { success := false, message := "Speed must be 10-60 cm/s for curves" }
  else if mid < 1 ∨ mid > 8 then
    .inl { success := false, message := "Mission pad ID must be 1-8" }
  else
    .inr ("curve " ++ toString x1 ++ " " ++ toString y1 ++ " " ++ toString z1 ++ " " ++
      toString x2 ++ " " ++ toString y2 ++ " " ++ toString z2 ++ " " ++
      toString speed ++ " m" ++ toString mid)

/-- jump: coordinates −500..500 cm, speed 10..100 cm/s, both mission pad ids
1..8 (yaw unvalidated), then enqueue
`jump <x> <y> <z> <speed> <yaw> m<mid1> m<mid2>`. -/
def jump (x y z speed yaw mid1 mid2 : ℤ) : OpResult :=
  if x < -500 ∨ x > 500 ∨ y < -500 ∨ y > 500 ∨ z < -500 ∨ z > 500 then
    .inl { success := false, message := "Coordinates must be -500 to 500 cm" }
  else if speed < 10 ∨ speed > 100 then
    .inl { success := false, message := "Speed must be 10-100 cm/s" }
  else if mid1 < 1 ∨ mid1 > 8 ∨ mid2 < 1 ∨ mid2 > 8 then
    .inl { success := false, message := "Mission pad IDs must be 1-8" }
  else
    .inr ("jump " ++ toString x ++ " " ++ toString y ++ " " ++ toString z ++ " " ++
      toString speed ++ " " ++ toString yaw ++ " m" ++ toString mid1 ++ " m" ++ toString mid2)

/-- Value of a decimal as a rational, for stating what Math.round computes. -/
def Dec.toRat (d : Dec) : ℚ := (d.mantissa : ℚ) / 10 ^ d.scale

/-- JS Math.round: the integer nearest to the argument, halves rounding toward
positive infinity, computed exactly on a decimal as
⌊(2·mantissa + 10^scale) / (2·10^scale)⌋ using floor division. -/
def jsRound (d : Dec) : ℤ := Int.fdiv (2 * d.mantissa + 10 ^ d.scale) (2 * 10 ^ d.scale)

/-- The clamp helper of sendRCControl:
Math.max(-100, Math.min(100, Math.round(val))). -/
def rcClamp (v : Dec) : ℤ := max (-100) (min 100 (jsRound v))

/-- Observation of one sendRCControl call: the datagram text written to the
command channel (none when the channel is not open and the call is a warn-only
no-op), and whether the not-connected warning was logged. -/
structure RCSendResult where
  sent : Option String
  warned : Bool
deriving DecidableEq, Repr

/-- sendRCControl: clamp each axis independently, encode
`rc <lr> <fb> <ud> <yaw>`, and send immediately on the command channel,
bypassing the queue; with no open socket it only logs a warning. -/
def sendRCControl (socketOpen : Bool) (leftRight forwardBackward upDown yaw : Dec) :
    RCSendResult :=
  let command := "rc " ++ toString (rcClamp leftRight) ++ " " ++
    toString (rcClamp forwardBackward) ++ " " ++ toString (rcClamp upDown) ++ " " ++
    toString (rcClamp yaw)
  if socketOpen then { sent := some command, warned := false }
  else { sent := none, warned := true }

/-- stop: sendRCControl with all four axes zero, returning the synthetic
success Response. -/
def stop (socketOpen : Bool) : RCSendResult × TelloResponse :=
  (sendRCControl socketOpen ⟨0, 0⟩ ⟨0, 0⟩ ⟨0, 0⟩ ⟨0, 0⟩,
   { success := true, message := "Stopped" })

/-- The literal staleness window (ms) compared against in the monitor tick of
startConnectionMonitoring. -/
def stalenessWindowMs : ℤ := 5000

/-- Whether a monitor tick at instant `now` sees stale telemetry: elapsed time
since the last state update exceeds 5000 ms, where a never-set lastStateUpdate
reads as infinite elapsed time. -/
def staleAt (lastStateUpdate : Option ℤ) (now : ℤ) : Bool :=
  match lastStateUpdate with
  | some t => stalenessWindowMs < now - t
  | none => true

/-- The monitor-visible state: the current connection state and a counter of
automatic land() commands the monitor has issued (each such land is wrapped in
a catch that logs and swallows its errors). -/
structure MonitorState where
  connectionState : ConnectionState
  landsIssued : ℕ
deriving DecidableEq, Repr

/-- One tick of the interval callback installed by startConnectionMonitoring:
on stale telemetry, issue an automatic land() if currently flying, then set the
connection state to error; otherwise do nothing. -/
def monitorTick (lastStateUpdate : Option ℤ) (s : MonitorState) (now : ℤ) : MonitorState :=
  if staleAt lastStateUpdate now then
    { connectionState := .error,
      landsIssued := if s.connectionState = .flying then s.landsIssued + 1 else s.landsIssued }
  else s

/-- The monitor state after a run of ticks at the given instants, with the
last telemetry update fixed (no datagrams arrive during the run). -/
def monitorRun (lastStateUpdate : Option ℤ) (s : MonitorState) (ticks : List ℤ) : MonitorState :=
  ticks.foldl (monitorTick lastStateUpdate) s

/-- The mutable safety settings of the service object, with their initializers
from the field declarations. -/
structure ServiceSettings where
  lowBatteryThreshold : ℤ := 10
  autoLandOnLowBattery : Bool := true
deriving DecidableEq, Repr

/-- The settings a freshly constructed service carries. -/
def defaultSettings : ServiceSettings := {}

/-- setLowBatteryThreshold: store the new threshold when it lies in 0..100,
ignore the call otherwise. -/
def setLowBatteryThreshold (s : ServiceSettings) (threshold : ℤ) : ServiceSettings :=
  if 0 ≤ threshold ∧ threshold ≤ 100 then { s with lowBatteryThreshold := threshold } else s

/-- setAutoLandOnLowBattery: store the flag. -/
def setAutoLandOnLowBattery (s : ServiceSettings) (enabled : Bool) : ServiceSettings :=
  { s with autoLandOnLowBattery := enabled }

/-- The runtime setter operations the service exposes that mutate safety
settings (the only other public mutators — connect, disconnect, the flight
commands and the callback registrations — touch sockets, connection state or
callback slots, never a safety threshold). -/
inductive SetterOp where
  | lowBattery (threshold : ℤ)
  | autoLand (enabled : Bool)
deriving DecidableEq, Repr

/-- Effect of one setter operation on the settings. -/
def applySetterOp (op : SetterOp) (s : ServiceSettings) : ServiceSettings :=
  match op with
  | .lowBattery t => setLowBatteryThreshold s t
  | .autoLand b => setAutoLandOnLowBattery s b

/-- The staleness window the monitor of a service with the given settings
compares against: the literal 5000 of startConnectionMonitoring, which reads
no field of the service settings. -/
def stalenessWindowOf (_s : ServiceSettings) : ℤ := stalenessWindowMs

/-- Lifecycle position of one pending sendCommand entry at the moment
disconnect() is called: still queued, or in flight (sent, listener attached,
timeout timer armed), or already settled. -/
inductive PendingStatus where
  | queued
  | inFlightAwaiting
  | settled (r : Except String TelloResponse)

/-- How a pending entry settles after disconnect(): disconnect closes and
nulls the sockets but cancels no command timer, so an in-flight entry's armed
timer still fires (no datagram can arrive on the closed socket) and resolves
it through the timeout branch of executeCommand; a still-queued entry is
dequeued by the worker loop and hits the null-socket reject branch of
executeCommand. -/
def settleAfterDisconnect (cmd : TelloCommand) : PendingStatus → PendingStatus
  | .queued => .settled (executeCommand false cmd .timerFired).result
  | .inFlightAwaiting => .settled (executeCommand true cmd .timerFired).result
  | .settled r => .settled r

/-- Whether a pending status is terminal (promise resolved or rejected). -/
def PendingStatus.isSettled : PendingStatus → Prop
  | .settled _ => True
  | _ => False

/-- The connection-state update of takeoff(): after the awaited response, a
success sets FLYING; the prior state is never consulted. -/
def takeoffTransition (prior : ConnectionState) (response : TelloResponse) : ConnectionState :=
  if response.success then .flying else prior

/-- The connection-state update of land(): a success sets CONNECTED. -/
def landTransition (prior : ConnectionState) (response : TelloResponse) : ConnectionState :=
  if response.success then .connected else prior

/-- The connection-state update of throwTakeoff(): a success sets FLYING. -/
def throwTakeoffTransition (prior : ConnectionState) (response : TelloResponse) : ConnectionState :=
  if response.success then .flying else prior

/-- The Response a command entry resolves with when the datagram `msg` wins
the race in executeCommand. -/
def datagramResponse (msg : String) : TelloResponse :=
  { success := jsTrim msg == "ok", message := jsTrim msg }

theorem lookupCase_eq_none (table : List (List Char × FieldKey)) (key : List Char)
    (h : key ∉ table.map Prod.fst) : lookupCase table key = none := by
  induction table with
  | nil => rfl
  | cons e rest ih =>
    obtain ⟨s, k⟩ := e
    simp only [List.map_cons, List.mem_cons, not_or] at h
    simp only [lookupCase, if_neg h.1]
    exact ih h.2

theorem lookupCase_mem (table : List (List Char × FieldKey)) (key : List Char)
    (k : FieldKey) (h : lookupCase table key = some k) : (key, k) ∈ table := by
  induction table with
  | nil => simp [lookupCase] at h
  | cons e rest ih =>
    obtain ⟨s, k2⟩ := e
    simp only [lookupCase] at h
    split_ifs at h with hks
    · obtain rfl : k2 = k := by injection h
      subst hks
      exact List.mem_cons_self _ _
    · exact List.mem_cons_of_mem _ (ih h)

theorem caseOf_height (key : List Char) (h : caseOf key = some .height) :
    key = "h".data := by
  have hm := lookupCase_mem keyCases key .height h
  simp [keyCases] at hm
  exact hm

theorem caseOf_battery (key : List Char) (h : caseOf key = some .battery) :
    key = "bat".data := by
  have hm := lookupCase_mem keyCases key .battery h
  simp [keyCases] at hm
  exact hm

theorem applySetter_height (key : List Char) (st : StateSnapshot) (v : JSNum)
    (h : key ≠ "h".data) : (applySetter key st v).height = st.height := by
  unfold applySetter
  cases hc : caseOf key with
  | none => rfl
  | some k => cases k <;> first | rfl | exact absurd (caseOf_height key hc) h

theorem applySetter_battery (key : List Char) (st : StateSnapshot) (v : JSNum)
    (h : key ≠ "bat".data) : (applySetter key st v).battery = st.battery := by
  unfold applySetter
  cases hc : caseOf key with
  | none => rfl
  | some k => cases k <;> first | rfl | exact absurd (caseOf_battery key hc) h

theorem applySetter_unknown (key : List Char) (st : StateSnapshot) (v : JSNum)
    (h : key ∉ recognizedKeys) : applySetter key st v = st := by
  unfold applySetter
  rw [show caseOf key = none from lookupCase_eq_none keyCases key h]

theorem applyPair_congr_of_key (f : StateSnapshot → Option JSNum) (k : List Char)
    (hset : ∀ key st v, key ≠ k → f (applySetter key st v) = f st)
    (st : StateSnapshot) (pair : List Char) (h : keyOf pair ≠ k) :
    f (applyPair st pair) = f st := by
  unfold applyPair
  cases hsp : splitOnChar ':' pair with
  | nil => rfl
  | cons key rest =>
    cases rest with
    | nil => rfl
    | cons value rest2 =>
      dsimp only
      split_ifs with hskip
      · rfl
      · exact hset key st (parseFloatChars value) (by simpa [keyOf, hsp] using h)

theorem foldl_applyPair_none (f : StateSnapshot → Option JSNum) (k : List Char)
    (hset : ∀ key st v, key ≠ k → f (applySetter key st v) = f st)
    (pairs : List (List Char)) (st : StateSnapshot)
    (hst : f st = none) (h : ∀ p ∈ pairs, keyOf p ≠ k) :
    f (pairs.foldl applyPair st) = none := by
  induction pairs generalizing st with
  | nil => exact hst
  | cons p ps ih =>
    refine ih (applyPair st p) ?_ fun q hq => h q (List.mem_cons_of_mem p hq)
    rw [applyPair_congr_of_key f k hset st p (h p (List.mem_cons_self p ps))]
    exact hst

/-- C2: every telemetry datagram is parsed into a fresh record that replaces
the previous snapshot in its entirety (the handler never consults the previous
snapshot); a key absent from the wire line is absent from the resulting
snapshot; and parsing "bat:50;h:100;" then "bat:48;" leaves a snapshot with
height undefined and battery 48. -/
theorem telemetry_wholesale_replacement :
    (∀ prev msg, updateSnapshot prev msg = parseStateString msg) ∧
    (snapshotAfter ["bat:50;h:100;", "bat:48;"]).height = none ∧
    (snapshotAfter ["bat:50;h:100;", "bat:48;"]).battery = some (.val ⟨48, 0⟩) ∧
    (∀ line : String, "h".data ∉ (splitOnChar ';' line.data).map keyOf →
      (parseStateString line).height = none) ∧
    (∀ line : String, "bat".data ∉ (splitOnChar ';' line.data).map keyOf →
      (parseStateString line).battery = none) := by
  refine ⟨fun prev msg => rfl, by decide, by decide, ?_, ?_⟩
  · intro line h
    refine foldl_applyPair_none StateSnapshot.height _ applySetter_height _ emptyState rfl ?_
    intro p hp heq
    exact h (heq ▸ List.mem_map_of_mem keyOf hp)
  · intro line h
    refine foldl_applyPair_none StateSnapshot.battery _ applySetter_battery _ emptyState rfl ?_
    intro p hp heq
    exact h (heq ▸ List.mem_map_of_mem keyOf hp)

/-- Witness for C2 at concrete datagrams: the line "bat:48;" carries no h key,
so the snapshot it produces leaves height undefined. -/
theorem telemetry_wholesale_replacement_witness :
    (parseStateString "bat:48;").height = none :=
  telemetry_wholesale_replacement.2.2.2.1 "bat:48;" (by decide)

theorem applyPair_malformed (st : StateSnapshot) (pair : List Char)
    (h : (splitOnChar ':' pair).headD [] = [] ∨ (splitOnChar ':' pair)[1]? = none ∨
      (splitOnChar ':' pair)[1]? = some []) :
    applyPair st pair = st := by
  unfold applyPair
  cases hsp : splitOnChar ':' pair with
  | nil => rfl
  | cons key rest =>
    cases rest with
    | nil => rfl
    | cons value rest2 =>
      dsimp only
      rw [hsp] at h
      simp only [List.headD_cons, List.getElem?_cons_succ, List.getElem?_cons_zero,
        Option.some.injEq, reduceCtorEq, false_or] at h
      rcases h with h | h
      · rw [if_pos (Or.inl h)]
      · rw [if_pos (Or.inr h)]

theorem applyPair_unknown (st : StateSnapshot) (pair : List Char)
    (h : keyOf pair ∉ recognizedKeys) : applyPair st pair = st := by
  unfold applyPair
  cases hsp : splitOnChar ':' pair with
  | nil => rfl
  | cons key rest =>
    cases rest with
    | nil => rfl
    | cons value rest2 =>
      dsimp only
      split_ifs with hskip
      · rfl
      · exact applySetter_unknown key st _ (by simpa [keyOf, hsp] using h)

/-- C7: the telemetry parser is total and lenient: a pair whose key or value is
missing after splitting on ":" is skipped; a pair with an unrecognized key is
silently ignored; a numeric parse failure yields NaN, which is stored in the
record rather than filtered out.  (Totality is by construction: parseStateString
is a total function.) -/
theorem parser_lenient_total :
    (∀ (st : StateSnapshot) (pair : List Char),
      (splitOnChar ':' pair).headD [] = [] ∨ (splitOnChar ':' pair)[1]? = none ∨
        (splitOnChar ':' pair)[1]? = some [] →
      applyPair st pair = st) ∧
    (∀ (st : StateSnapshot) (pair : List Char),
      keyOf pair ∉ recognizedKeys → applyPair st pair = st) ∧
    parseFloatChars "abc".data = .nan ∧
    (parseStateString "bat:abc;").battery = some .nan := by
  exact ⟨applyPair_malformed, applyPair_unknown, by decide, by decide⟩

/-- Witness for C7 at concrete pairs: an unknown key and a missing key are
both ignored. -/
theorem parser_lenient_total_witness :
    applyPair emptyState "foo:5".data = emptyState ∧
    applyPair emptyState ":5".data = emptyState :=
  ⟨parser_lenient_total.2.1 emptyState "foo:5".data (by decide),
   parser_lenient_total.1 emptyState ":5".data (by decide)⟩

theorem processCommandQueue_mem_bounds (cmds : List (String × ℕ)) (t0 : ℕ) :
    ∀ e ∈ processCommandQueue t0 cmds, t0 ≤ e.sendTime ∧ e.sendTime ≤ e.resolveTime := by
  induction cmds generalizing t0 with
  | nil =>
    intro e he
    simp [processCommandQueue] at he
  | cons cd rest ih =>
    intro e he
    obtain ⟨c, d⟩ := cd
    simp only [processCommandQueue, List.mem_cons] at he
    rcases he with rfl | he
    · exact ⟨Nat.le_refl _, Nat.le_add_right _ _⟩
    · have h2 := ih (t0 + d + settleDelay) e he
      exact ⟨by omega, h2.2⟩

theorem processCommandQueue_pairwise (cmds : List (String × ℕ)) (t0 : ℕ) :
    (processCommandQueue t0 cmds).Pairwise
      (fun a b => a.resolveTime + settleDelay ≤ b.sendTime) := by
  induction cmds generalizing t0 with
  | nil => simp [processCommandQueue]
  | cons cd rest ih =>
    obtain ⟨c, d⟩ := cd
    simp only [processCommandQueue]
    refine List.Pairwise.cons ?_ (ih _)
    intro b hb
    exact (processCommandQueue_mem_bounds rest (t0 + d + settleDelay) b hb).1

theorem processCommandQueue_map (cmds : List (String × ℕ)) (t0 : ℕ) :
    (processCommandQueue t0 cmds).map TimedSend.cmd = cmds.map Prod.fst := by
  induction cmds generalizing t0 with
  | nil => rfl
  | cons cd rest ih =>
    obtain ⟨c, d⟩ := cd
    simp only [processCommandQueue, List.map_cons, ih]

theorem processCommandQueue_consecutive (cmds : List (String × ℕ)) (t0 : ℕ) (i : ℕ)
    (h : i + 1 < (processCommandQueue t0 cmds).length) :
    ((processCommandQueue t0 cmds).getD (i + 1) ⟨"", 0, 0⟩).sendTime =
      ((processCommandQueue t0 cmds).getD i ⟨"", 0, 0⟩).resolveTime + settleDelay := by
  induction cmds generalizing t0 i with
  | nil => simp [processCommandQueue] at h
  | cons cd rest ih =>
    obtain ⟨c, d⟩ := cd
    match i with
    | 0 =>
      match rest with
      | [] => simp [processCommandQueue] at h
      | (c2, d2) :: r2 => simp [processCommandQueue]
    | i + 1 =>
      have h2 : i + 1 < (processCommandQueue (t0 + d + settleDelay) rest).length := by
        simpa [processCommandQueue] using h
      simpa [processCommandQueue] using ih (t0 + d + settleDelay) i h2

/-- C1: the dispatcher worker drains the queue strictly in submission (FIFO)
order; at most one entry is in flight at any instant (each entry's send-to-
resolution interval ends, plus the settle delay, before the next entry's
send); and the fixed 100 ms settle delay separates each entry's resolution
from the next entry's send. -/
theorem dispatcher_fifo_single_flight (cmds : List (String × ℕ)) (t0 : ℕ) :
    (processCommandQueue t0 cmds).map TimedSend.cmd = cmds.map Prod.fst ∧
    (∀ e ∈ processCommandQueue t0 cmds, e.sendTime ≤ e.resolveTime) ∧
    (processCommandQueue t0 cmds).Pairwise
      (fun a b => a.resolveTime + settleDelay ≤ b.sendTime) ∧
    (∀ i, i + 1 < (processCommandQueue t0 cmds).length →
      ((processCommandQueue t0 cmds).getD (i + 1) ⟨"", 0, 0⟩).sendTime =
        ((processCommandQueue t0 cmds).getD i ⟨"", 0, 0⟩).resolveTime + settleDelay) ∧
    settleDelay = 100 :=
  ⟨processCommandQueue_map cmds t0,
   fun e he => (processCommandQueue_mem_bounds cmds t0 e he).2,
   processCommandQueue_pairwise cmds t0,
   fun i hi => processCommandQueue_consecutive cmds t0 i hi,
   rfl⟩

/-- Witness for C1 on a concrete two-command queue: sends come out in
submission order, and the second send happens exactly one settle delay after
the first entry resolves. -/
theorem dispatcher_fifo_single_flight_witness :
    (processCommandQueue 0 [("command", 7), ("takeoff", 3)]).map TimedSend.cmd =
      ["command", "takeoff"] ∧
    ((processCommandQueue 0 [("command", 7), ("takeoff", 3)]).getD 1 ⟨"", 0, 0⟩).sendTime =
      ((processCommandQueue 0 [("command", 7), ("takeoff", 3)]).getD 0 ⟨"", 0, 0⟩).resolveTime +
        settleDelay :=
  ⟨(dispatcher_fifo_single_flight [("command", 7), ("takeoff", 3)] 0).1,
   (dispatcher_fifo_single_flight [("command", 7), ("takeoff", 3)] 0).2.2.2.1 0 (by decide)⟩

theorem executeCommand_timeout (cmd : TelloCommand) (hexp : cmd.expectResponse ≠ some false) :
    executeCommand true cmd .timerFired =
      { result := .ok { success := false, message := "Command timeout" },
        listenerLive := false, timerLive := false } := by
  unfold executeCommand
  rw [if_neg (by simp), if_neg hexp]

/-- C3: for a command that expects a response, the first of
{datagram, timer} wins: a datagram resolves with success iff the trimmed text
is the literal "ok" and with the trimmed text as message either way, while the
timer resolves with a failure carrying exactly the fixed timeout marker; in
both cases the timer is cancelled (or already spent) and the one-shot
response listener is deregistered, so a late datagram cannot resolve the
stale entry. -/
theorem executeCommand_race_resolution (cmd : TelloCommand) (msg : String)
    (hexp : cmd.expectResponse ≠ some false) :
    executeCommand true cmd (.datagram msg) =
      { result := .ok (datagramResponse msg), listenerLive := false, timerLive := false } ∧
    ((datagramResponse msg).success = true ↔ jsTrim msg = "ok") ∧
    (datagramResponse msg).message = jsTrim msg ∧
    executeCommand true cmd .timerFired =
      { result := .ok { success := false, message := "Command timeout" },
        listenerLive := false, timerLive := false } := by
  refine ⟨?_, ?_, rfl, ?_⟩
  · unfold executeCommand
    rw [if_neg (by simp), if_neg hexp]
    rfl
  · simp [datagramResponse]
  · exact executeCommand_timeout cmd hexp

/-- Witness for C3 at a concrete command: the timeout path resolves the "land"
entry with the fixed timeout marker, listener deregistered and timer spent. -/
theorem executeCommand_race_resolution_witness :
    executeCommand true { command := "land" } .timerFired =
      { result := .ok { success := false, message := "Command timeout" },
        listenerLive := false, timerLive := false } :=
  (executeCommand_race_resolution { command := "land" } "ok" (by decide)).2.2.2

theorem move_spec (dir : String) (d : ℤ) :
    ((d < 20 ∨ 500 < d) → isLocalReject (move dir d)) ∧
    (20 ≤ d → d ≤ 500 → move dir d = .inr (dir ++ " " ++ toString d)) := by
  constructor
  · intro h
    unfold move
    rw [if_pos h]
    exact rfl
  · intro h1 h2
    unfold move
    rw [if_neg (by omega)]

theorem rotate_spec (dir : String) (deg : ℤ) :
    ((deg < 1 ∨ 360 < deg) → isLocalReject (rotate dir deg)) ∧
    (1 ≤ deg → deg ≤ 360 → rotate dir deg = .inr (dir ++ " " ++ toString deg)) := by
  constructor
  · intro h
    unfold rotate
    rw [if_pos h]
    exact rfl
  · intro h1 h2
    unfold rotate
    rw [if_neg (by omega)]

theorem setSpeed_spec (v : ℤ) :
    ((v < 10 ∨ 100 < v) → isLocalReject (setSpeed v)) ∧
    (10 ≤ v → v ≤ 100 → setSpeed v = .inr ("speed " ++ toString v)) := by
  constructor
  · intro h
    unfold setSpeed
    rw [if_pos h]
    exact rfl
  · intro h1 h2
    unfold setSpeed
    rw [if_neg (by omega)]

theorem goXYZSpeed_spec (x y z v : ℤ) :
    (¬ (-500 ≤ x ∧ x ≤ 500 ∧ -500 ≤ y ∧ y ≤ 500 ∧ -500 ≤ z ∧ z ≤ 500 ∧
        10 ≤ v ∧ v ≤ 100) → isLocalReject (goXYZSpeed x y z v)) ∧
    (-500 ≤ x → x ≤ 500 → -500 ≤ y → y ≤ 500 → -500 ≤ z → z ≤ 500 → 10 ≤ v → v ≤ 100 →
      goXYZSpeed x y z v = .inr ("go " ++ toString x ++ " " ++ toString y ++ " " ++
        toString z ++ " " ++ toString v)) := by
  constructor
  · intro h
    unfold goXYZSpeed
    split_ifs with h1 h2
    · exact rfl
    · exact rfl
    · exact absurd (by omega) h
  · intro hx1 hx2 hy1 hy2 hz1 hz2 hv1 hv2
    unfold goXYZSpeed
    rw [if_neg (by omega), if_neg (by omega)]

theorem curveXYZSpeed_spec (x1 y1 z1 x2 y2 z2 v : ℤ) :
    (¬ (-500 ≤ x1 ∧ x1 ≤ 500 ∧ -500 ≤ y1 ∧ y1 ≤ 500 ∧ -500 ≤ z1 ∧ z1 ≤ 500 ∧
        -500 ≤ x2 ∧ x2 ≤ 500 ∧ -500 ≤ y2 ∧ y2 ≤ 500 ∧ -500 ≤ z2 ∧ z2 ≤ 500 ∧
        10 ≤ v ∧ v ≤ 60) → isLocalReject (curveXYZSpeed x1 y1 z1 x2 y2 z2 v)) ∧
    (-500 ≤ x1 → x1 ≤ 500 → -500 ≤ y1 → y1 ≤ 500 → -500 ≤ z1 → z1 ≤ 500 →
     -500 ≤ x2 → x2 ≤ 500 → -500 ≤ y2 → y2 ≤ 500 → -500 ≤ z2 → z2 ≤ 500 →
     10 ≤ v → v ≤ 60 →
      curveXYZSpeed x1 y1 z1 x2 y2 z2 v = .inr ("curve " ++ toString x1 ++ " " ++
        toString y1 ++ " " ++ toString z1 ++ " " ++ toString x2 ++ " " ++ toString y2 ++
        " " ++ toString z2 ++ " " ++ toString v)) := by
  constructor
  · intro h
    unfold curveXYZSpeed
    split_ifs with h1 h2
    · exact rfl
    · exact rfl
    · exact absurd (by omega) h
  · intro hx1 hx2 hy1 hy2 hz1 hz2 hu1 hu2 hw1 hw2 hq1 hq2 hv1 hv2
    unfold curveXYZSpeed
    rw [if_neg (by omega), if_neg (by omega)]

theorem goXYZSpeedMid_spec (x y z v m : ℤ) :
    (¬ (-500 ≤ x ∧ x ≤ 500 ∧ -500 ≤ y ∧ y ≤ 500 ∧ -500 ≤ z ∧ z ≤ 500 ∧
        10 ≤ v ∧ v ≤ 100 ∧ 1 ≤ m ∧ m ≤ 8) → isLocalReject (goXYZSpeedMid x y z v m)) ∧
    (-500 ≤ x → x ≤ 500 → -500 ≤ y → y ≤ 500 → -500 ≤ z → z ≤ 500 →
     10 ≤ v → v ≤ 100 → 1 ≤ m → m ≤ 8 →
      goXYZSpeedMid x y z v m = .inr ("go " ++ toString x ++ " " ++ toString y ++ " " ++
        toString z ++ " " ++ toString v ++ " m" ++ toString m)) := by
  constructor
  · intro h
    unfold goXYZSpeedMid
    split_ifs with h1 h2 h3
    · exact rfl
    · exact rfl
    · exact rfl
    · exact absurd (by omega) h
  · intro hx1 hx2 hy1 hy2 hz1 hz2 hv1 hv2 hm1 hm2
    unfold goXYZSpeedMid
    rw [if_neg (by omega), if_neg (by omega), if_neg (by omega)]

theorem curveXYZSpeedMid_spec (x1 y1 z1 x2 y2 z2 v m : ℤ) :
    (¬ (-500 ≤ x1 ∧ x1 ≤ 500 ∧ -500 ≤ y1 ∧ y1 ≤ 500 ∧ -500 ≤ z1 ∧ z1 ≤ 500 ∧
        -500 ≤ x2 ∧ x2 ≤ 500 ∧ -500 ≤ y2 ∧ y2 ≤ 500 ∧ -500 ≤ z2 ∧ z2 ≤ 500 ∧
        10 ≤ v ∧ v ≤ 60 ∧ 1 ≤ m ∧ m ≤ 8) →
      isLocalReject (curveXYZSpeedMid x1 y1 z1 x2 y2 z2 v m)) ∧
    (-500 ≤ x1 → x1 ≤ 500 → -500 ≤ y1 → y1 ≤ 500 → -500 ≤ z1 → z1 ≤ 500 →
     -500 ≤ x2 → x2 ≤ 500 → -500 ≤ y2 → y2 ≤ 500 → -500 ≤ z2 → z2 ≤ 500 →
     10 ≤ v → v ≤ 60 → 1 ≤ m → m ≤ 8 →
      curveXYZSpeedMid x1 y1 z1 x2 y2 z2 v m = .inr ("curve " ++ toString x1 ++ " " ++
        toString y1 ++ " " ++ toString z1 ++ " " ++ toString x2 ++ " " ++ toString y2 ++
        " " ++ toString z2 ++ " " ++ toString v ++ " m" ++ toString m)) := by
  constructor
  · intro h
    unfold curveXYZSpeedMid
    split_ifs with h1 h2 h3
    · exact rfl
    · exact rfl
    · exact rfl
    · exact absurd (by omega) h
  · intro hx1 hx2 hy1 hy2 hz1 hz2 hu1 hu2 hw1 hw2 hq1 hq2 hv1 hv2 hm1 hm2
    unfold curveXYZSpeedMid
    rw [if_neg (by omega), if_neg (by omega), if_neg (by omega)]

theorem jump_spec (x y z v yw m1 m2 : ℤ) :
    (¬ (-500 ≤ x ∧ x ≤ 500 ∧ -500 ≤ y ∧ y ≤ 500 ∧ -500 ≤ z ∧ z ≤ 500 ∧
        10 ≤ v ∧ v ≤ 100 ∧ 1 ≤ m1 ∧ m1 ≤ 8 ∧ 1 ≤ m2 ∧ m2 ≤ 8) →
      isLocalReject (jump x y z v yw m1 m2)) ∧
    (-500 ≤ x → x ≤ 500 → -500 ≤ y → y ≤ 500 → -500 ≤ z → z ≤ 500 →
     10 ≤ v → v ≤ 100 → 1 ≤ m1 → m1 ≤ 8 → 1 ≤ m2 → m2 ≤ 8 →
      jump x y z v yw m1 m2 = .inr ("jump " ++ toString x ++ " " ++ toString y ++ " " ++
        toString z ++ " " ++ toString v ++ " " ++ toString yw ++ " m" ++ toString m1 ++
        " m" ++ toString m2)) := by
  constructor
  · intro h
    unfold jump
    split_ifs with h1 h2 h3
    · exact rfl
    · exact rfl
    · exact rfl
    · exact absurd (by omega) h
  · intro hx1 hx2 hy1 hy2 hz1 hz2 hv1 hv2 hm1 hm2 hn1 hn2
    unfold jump
    rw [if_neg (by omega), if_neg (by omega), if_neg (by omega)]

/-- C4: every typed operation with an out-of-range numeric argument returns a
failure Response synchronously, with nothing handed to the dispatcher and no
network I/O (the Sum.inl branch), and every in-range call delegates to the
dispatcher with the literal encoded command string (the Sum.inr branch):
linear moves 20..500 cm, rotation 1..360 degrees, cruise speed 10..100 cm/s,
XYZ coordinates -500..500 cm, go-to-point speed 10..100 cm/s, curve speed
10..60 cm/s, mission pad ids 1..8. -/
theorem range_validation_local :
    (∀ dir d, ((d < 20 ∨ 500 < d) → isLocalReject (move dir d)) ∧
      (20 ≤ d → d ≤ 500 → move dir d = .inr (dir ++ " " ++ toString d))) ∧
    (∀ dir deg, ((deg < 1 ∨ 360 < deg) → isLocalReject (rotate dir deg)) ∧
      (1 ≤ deg → deg ≤ 360 → rotate dir deg = .inr (dir ++ " " ++ toString deg))) ∧
    (∀ v, ((v < 10 ∨ 100 < v) → isLocalReject (setSpeed v)) ∧
      (10 ≤ v → v ≤ 100 → setSpeed v = .inr ("speed " ++ toString v))) ∧
    (∀ x y z v, ¬ (-500 ≤ x ∧ x ≤ 500 ∧ -500 ≤ y ∧ y ≤ 500 ∧ -500 ≤ z ∧ z ≤ 500 ∧
        10 ≤ v ∧ v ≤ 100) → isLocalReject (goXYZSpeed x y z v)) ∧
    (∀ x1 y1 z1 x2 y2 z2 v, ¬ (-500 ≤ x1 ∧ x1 ≤ 500 ∧ -500 ≤ y1 ∧ y1 ≤ 500 ∧
        -500 ≤ z1 ∧ z1 ≤ 500 ∧ -500 ≤ x2 ∧ x2 ≤ 500 ∧ -500 ≤ y2 ∧ y2 ≤ 500 ∧
        -500 ≤ z2 ∧ z2 ≤ 500 ∧ 10 ≤ v ∧ v ≤ 60) →
      isLocalReject (curveXYZSpeed x1 y1 z1 x2 y2 z2 v)) ∧
    (∀ x y z v m, ¬ (-500 ≤ x ∧ x ≤ 500 ∧ -500 ≤ y ∧ y ≤ 500 ∧ -500 ≤ z ∧ z ≤ 500 ∧
        10 ≤ v ∧ v ≤ 100 ∧ 1 ≤ m ∧ m ≤ 8) → isLocalReject (goXYZSpeedMid x y z v m)) ∧
    (∀ x1 y1 z1 x2 y2 z2 v m, ¬ (-500 ≤ x1 ∧ x1 ≤ 500 ∧ -500 ≤ y1 ∧ y1 ≤ 500 ∧
        -500 ≤ z1 ∧ z1 ≤ 500 ∧ -500 ≤ x2 ∧ x2 ≤ 500 ∧ -500 ≤ y2 ∧ y2 ≤ 500 ∧
        -500 ≤ z2 ∧ z2 ≤ 500 ∧ 10 ≤ v ∧ v ≤ 60 ∧ 1 ≤ m ∧ m ≤ 8) →
      isLocalReject (curveXYZSpeedMid x1 y1 z1 x2 y2 z2 v m)) ∧
    (∀ x y z v yw m1 m2, (10 ≤ v → v ≤ 100 → -500 ≤ x → x ≤ 500 → -500 ≤ y → y ≤ 500 →
      -500 ≤ z → z ≤ 500 → 1 ≤ m1 → m1 ≤ 8 → 1 ≤ m2 → m2 ≤ 8 →
      jump x y z v yw m1 m2 = .inr ("jump " ++ toString x ++ " " ++ toString y ++ " " ++
        toString z ++ " " ++ toString v ++ " " ++ toString yw ++ " m" ++ toString m1 ++
        " m" ++ toString m2))) ∧
    (∀ x y z v, -500 ≤ x → x ≤ 500 → -500 ≤ y → y ≤ 500 → -500 ≤ z → z ≤ 500 →
      10 ≤ v → v ≤ 100 → goXYZSpeed x y z v = .inr ("go " ++ toString x ++ " " ++
        toString y ++ " " ++ toString z ++ " " ++ toString v)) :=
  ⟨move_spec, rotate_spec, setSpeed_spec,
   fun x y z v => (goXYZSpeed_spec x y z v).1,
   fun x1 y1 z1 x2 y2 z2 v => (curveXYZSpeed_spec x1 y1 z1 x2 y2 z2 v).1,
   fun x y z v m => (goXYZSpeedMid_spec x y z v m).1,
   fun x1 y1 z1 x2 y2 z2 v m => (curveXYZSpeedMid_spec x1 y1 z1 x2 y2 z2 v m).1,
   fun x y z v yw m1 m2 hv1 hv2 hx1 hx2 hy1 hy2 hz1 hz2 hm1 hm2 hn1 hn2 =>
     (jump_spec x y z v yw m1 m2).2 hx1 hx2 hy1 hy2 hz1 hz2 hv1 hv2 hm1 hm2 hn1 hn2,
   fun x y z v hx1 hx2 hy1 hy2 hz1 hz2 hv1 hv2 =>
     (goXYZSpeed_spec x y z v).2 hx1 hx2 hy1 hy2 hz1 hz2 hv1 hv2⟩

/-- Witness for C4 at concrete arguments: move up 50 is delegated as the
literal "up 50", move up 600 is rejected locally, and a curve at point speed
80 cm/s is rejected. -/
theorem range_validation_local_witness :
    move "up" 50 = .inr ("up" ++ " " ++ toString (50 : ℤ)) ∧
    isLocalReject (move "up" 600) ∧
    isLocalReject (curveXYZSpeed 0 0 100 100 0 100 80) :=
  ⟨(range_validation_local.1 "up" 50).2 (by decide) (by decide),
   (range_validation_local.1 "up" 600).1 (by decide),
   range_validation_local.2.2.2.2.1 0 0 100 100 0 100 80 (by decide)⟩

theorem monitorRun_error (lastStateUpdate : Option ℤ) (ticks : List ℤ) (n : ℕ) :
    monitorRun lastStateUpdate ⟨.error, n⟩ ticks = ⟨.error, n⟩ := by
  induction ticks with
  | nil => rfl
  | cons t ts ih =>
    have hstep : monitorTick lastStateUpdate ⟨.error, n⟩ t = ⟨.error, n⟩ := by
      simp [monitorTick]
    simpa [monitorRun, hstep] using ih

/-- C5: while Flying, if no telemetry datagram arrives and every monitor tick
sees staleness beyond the 5000 ms window, the monitor issues exactly one
automatic land command (on the first stale tick; its errors are caught and
logged by the .catch wrapper, reflected in the model by the tick being a pure
update) and the connection state transitions to Error and remains Error for
the whole run. -/
theorem staleness_autoland_once (lastStateUpdate : Option ℤ) (ticks : List ℤ)
    (hne : ticks ≠ []) (hstale : ∀ t ∈ ticks, staleAt lastStateUpdate t = true) :
    monitorRun lastStateUpdate ⟨.flying, 0⟩ ticks = ⟨.error, 1⟩ := by
  match ticks, hne with
  | t :: ts, _ =>
    have h1 : monitorTick lastStateUpdate ⟨.flying, 0⟩ t = ⟨.error, 1⟩ := by
      unfold monitorTick
      rw [if_pos (hstale t (List.mem_cons_self t ts))]
      rfl
    calc monitorRun lastStateUpdate ⟨.flying, 0⟩ (t :: ts)
        = monitorRun lastStateUpdate ⟨.error, 1⟩ ts := by
          simp [monitorRun, h1]
      _ = ⟨.error, 1⟩ := monitorRun_error lastStateUpdate ts 1

/-- Witness for C5 on a concrete run: last telemetry at instant 0, ticks at
6000 ms and 7000 ms; the run lands once and ends (and stays) in Error. -/
theorem staleness_autoland_once_witness :
    monitorRun (some 0) ⟨.flying, 0⟩ [6000, 7000] = ⟨.error, 1⟩ :=
  staleness_autoland_once (some 0) [6000, 7000] (by decide) (by decide)

/-- C6: sendRCControl clamps each axis independently to [-100, 100] after
rounding to the nearest integer (JS Math.round) and encodes and sends the
literal "rc <lr> <fb> <ud> <yaw>" string; sendContinuousControl(150, -300, 0, 0)
encodes "rc 100 -100 0 0"; with the command channel not open the call sends
nothing and only logs a warning; and stop() is exactly this call with all four
axes zero. -/
theorem rc_control_clamp_encode (socketOpen : Bool) (lr fb ud yw : Dec) :
    (sendRCControl true lr fb ud yw).sent =
      some ("rc " ++ toString (rcClamp lr) ++ " " ++ toString (rcClamp fb) ++ " " ++
        toString (rcClamp ud) ++ " " ++ toString (rcClamp yw)) ∧
    (-100 ≤ rcClamp lr ∧ rcClamp lr ≤ 100) ∧
    sendRCControl false lr fb ud yw = { sent := none, warned := true } ∧
    (stop socketOpen).1 = sendRCControl socketOpen ⟨0, 0⟩ ⟨0, 0⟩ ⟨0, 0⟩ ⟨0, 0⟩ ∧
    (stop socketOpen).2 = { success := true, message := "Stopped" } ∧
    (sendRCControl true ⟨150, 0⟩ ⟨-300, 0⟩ ⟨0, 0⟩ ⟨0, 0⟩).sent = some "rc 100 -100 0 0" := by
  refine ⟨rfl, ?_, rfl, rfl, rfl, by decide⟩
  unfold rcClamp
  constructor
  · exact le_max_left _ _
  · exact max_le (by omega) (min_le_left _ _)

/-- C8: a pending sendCommand entry is never leaked by disconnect(): whatever
its lifecycle position when the channel is closed, it still settles — a
still-queued entry is rejected through the null-socket branch, and an
in-flight entry is resolved by its still-armed timeout timer (disconnect
cancels no command timer, and the closed channel delivers no datagram). -/
theorem disconnect_settles_pending (cmd : TelloCommand) (s : PendingStatus)
    (hexp : cmd.expectResponse ≠ some false) :
    (settleAfterDisconnect cmd s).isSettled ∧
    settleAfterDisconnect cmd .queued = .settled (.error "Not connected") ∧
    settleAfterDisconnect cmd .inFlightAwaiting =
      .settled (.ok { success := false, message := "Command timeout" }) := by
  refine ⟨?_, rfl, ?_⟩
  · cases s <;> trivial
  · show PendingStatus.settled (executeCommand true cmd .timerFired).result = _
    rw [executeCommand_timeout cmd hexp]

/-- Witness for C8 at a concrete pending entry: a queued "battery?" command is
rejected, an in-flight one resolves with the timeout response. -/
theorem disconnect_settles_pending_witness :
    settleAfterDisconnect { command := "battery?" } .queued =
      .settled (.error "Not connected") ∧
    settleAfterDisconnect { command := "battery?" } .inFlightAwaiting =
      .settled (.ok { success := false, message := "Command timeout" }) :=
  ⟨(disconnect_settles_pending { command := "battery?" } .queued (by decide)).2.1,
   (disconnect_settles_pending { command := "battery?" } .inFlightAwaiting (by decide)).2.2⟩

/-- C9 counterexample: the claim that the telemetry staleness window is
mutable at runtime through a setter operation of the service is false — no
setter operation changes the window the monitor compares against; it is the
literal 5000 ms whatever the settings. -/
theorem staleness_setter_counterexample :
    ¬ ∃ (op : SetterOp) (s : ServiceSettings),
        stalenessWindowOf (applySetterOp op s) ≠ stalenessWindowOf s := by
  rintro ⟨op, s, h⟩
  exact h rfl

/-- C9 as amended: only the low-battery percent is mutable at runtime via a
setter (setLowBatteryThreshold, applied when the value lies in 0..100); the
telemetry staleness window is the fixed literal 5000 ms of the monitor loop,
unchanged by every setter operation. -/
theorem battery_mutable_staleness_fixed :
    (setLowBatteryThreshold defaultSettings 20).lowBatteryThreshold = 20 ∧
    defaultSettings.lowBatteryThreshold = 10 ∧
    (∀ s t, 0 ≤ t → t ≤ 100 → (setLowBatteryThreshold s t).lowBatteryThreshold = t) ∧
    (∀ op s, stalenessWindowOf (applySetterOp op s) = stalenessWindowMs) ∧
    stalenessWindowMs = 5000 := by
  refine ⟨by decide, rfl, ?_, fun op s => rfl, rfl⟩
  intro s t h1 h2
  unfold setLowBatteryThreshold
  rw [if_pos ⟨h1, h2⟩]

/-- Witness for the amended C9 at a concrete setting: threshold 25 is stored. -/
theorem battery_mutable_staleness_fixed_witness :
    (setLowBatteryThreshold defaultSettings 25).lowBatteryThreshold = 25 :=
  battery_mutable_staleness_fixed.2.2.1 defaultSettings 25 (by decide) (by decide)

/-- C10: the success-path state transitions of takeoff(), land() and
throwTakeoff() are not guarded by the prior connection state: from every prior
state, Disconnected and Error included, a successful "ok" response to takeoff
or throwfly sets Flying and a successful response to land sets Connected. -/
theorem flight_transitions_unguarded (prior : ConnectionState) :
    takeoffTransition prior (datagramResponse "ok") = .flying ∧
    landTransition prior (datagramResponse "ok") = .connected ∧
    throwTakeoffTransition prior (datagramResponse "ok") = .flying ∧
    (∀ r : TelloResponse, r.success = true →
      takeoffTransition prior r = .flying ∧ landTransition prior r = .connected ∧
        throwTakeoffTransition prior r = .flying) := by
  have hok : (datagramResponse "ok").success = true := by decide
  refine ⟨?_, ?_, ?_, ?_⟩
  · unfold takeoffTransition
    rw [if_pos hok]
  · unfold landTransition
    rw [if_pos hok]
  · unfold throwTakeoffTransition
    rw [if_pos hok]
  · intro r hr
    exact ⟨by unfold takeoffTransition; rw [if_pos hr],
           by unfold landTransition; rw [if_pos hr],
           by unfold throwTakeoffTransition; rw [if_pos hr]⟩

/-- Witness for C10 at prior state Disconnected: a plain success response
moves the machine to Flying and Connected respectively. -/
theorem flight_transitions_unguarded_witness :
    takeoffTransition .disconnected { success := true, message := "ok" } = .flying ∧
    landTransition .error { success := true, message := "ok" } = .connected :=
  ⟨((flight_transitions_unguarded .disconnected).2.2.2
      { success := true, message := "ok" } rfl).1,
   ((flight_transitions_unguarded .error).2.2.2
      { success := true, message := "ok" } rfl).2.1⟩

end TelloDew
